import Mathlib

/-!
Verification of the crop-profitability scoring and ranking engine of the
Agri-Smart backend. The definitions below are a shallow embedding of
`app/apis/profitable_crops.py` (the authoritative six-crop copy of the
analyzer): Python floats are modelled as exact rationals, the crop catalog
as a list of records in source insertion order, and Python's stable
`list.sort(key=..., reverse=True)` as a stable merge sort with a
descending comparator. Python's `round(x, d)` (decimal rounding) is
modelled as round-half-up to `d` decimal places; none of the results
proved here depends on the tie-breaking rule of the rounding.
-/

/-- Nutrient requirements of a crop, the `nutrient_requirements` dict of a
`CROP_DATA` entry. -/
structure NutrientRequirements where
  N : ℚ
  P : ℚ
  K : ℚ
  pH_min : ℚ
  pH_max : ℚ
deriving DecidableEq, Repr

/-- The `water_requirement` enum of a catalog entry. -/
inductive WaterRequirement where
  | low
  | medium
  | high
  | very_high
deriving DecidableEq, Repr, Inhabited

/-- One static catalog entry of `CROP_DATA` together with its dict key
(`id`). -/
structure CropProfile where
  id : String
  name : String
  nutrient_requirements : NutrientRequirements
  base_yield : ℚ
  market_price : ℚ
  growing_season : ℕ
  water_requirement : WaterRequirement
deriving DecidableEq, Repr

/-- The `wheat` entry of `CROP_DATA`. -/
def wheatProfile : CropProfile :=
  { id := "wheat", name := "Wheat"
    nutrient_requirements := { N := 120, P := 60, K := 40, pH_min := 6, pH_max := 15/2 }
    base_yield := 9/2, market_price := 250, growing_season := 120
    water_requirement := .medium }

/-- The `rice` entry of `CROP_DATA`. -/
def riceProfile : CropProfile :=
  { id := "rice", name := "Rice"
    nutrient_requirements := { N := 100, P := 50, K := 50, pH_min := 11/2, pH_max := 7 }
    base_yield := 5, market_price := 350, growing_season := 150
    water_requirement := .high }

/-- The `corn` entry of `CROP_DATA`. -/
def cornProfile : CropProfile :=
  { id := "corn", name := "Corn"
    nutrient_requirements := { N := 150, P := 70, K := 60, pH_min := 6, pH_max := 7 }
    base_yield := 6, market_price := 175, growing_season := 100
    water_requirement := .medium }

/-- The `cotton` entry of `CROP_DATA`. -/
def cottonProfile : CropProfile :=
  { id := "cotton", name := "Cotton"
    nutrient_requirements := { N := 80, P := 40, K := 80, pH_min := 29/5, pH_max := 8 }
    base_yield := 5/2, market_price := 1200, growing_season := 180
    water_requirement := .high }

/-- The `sugarcane` entry of `CROP_DATA`. -/
def sugarcaneProfile : CropProfile :=
  { id := "sugarcane", name := "Sugarcane"
    nutrient_requirements := { N := 200, P := 80, K := 160, pH_min := 6, pH_max := 15/2 }
    base_yield := 70, market_price := 35, growing_season := 365
    water_requirement := .very_high }

/-- The `soybean` entry of `CROP_DATA`. -/
def soybeanProfile : CropProfile :=
  { id := "soybean", name := "Soybean"
    nutrient_requirements := { N := 60, P := 80, K := 100, pH_min := 6, pH_max := 7 }
    base_yield := 3, market_price := 400, growing_season := 120
    water_requirement := .medium }

/-- The fixed crop catalog `CROP_DATA`, in source insertion order (Python
dicts preserve insertion order, which is the iteration order of the
analysis loop). -/
def CROP_DATA : List CropProfile :=
  [wheatProfile, riceProfile, cornProfile, cottonProfile, sugarcaneProfile, soybeanProfile]

/-- Price `FERTILIZER_PRICES["urea"]`, USD per 50 kg bag. -/
def ureaPrice : ℚ := 25

/-- Price `FERTILIZER_PRICES["dap"]`, USD per 50 kg bag. -/
def dapPrice : ℚ := 35

/-- Price `FERTILIZER_PRICES["mop"]`, USD per 50 kg bag. -/
def mopPrice : ℚ := 20

/-- The `base_costs_per_ha` dict lookup with its `.get(crop_id, 200)`
default. -/
def base_costs_per_ha (crop_id : String) : ℚ :=
  if crop_id = "wheat" then 200
  else if crop_id = "rice" then 250
  else if crop_id = "corn" then 180
  else if crop_id = "cotton" then 300
  else if crop_id = "sugarcane" then 500
  else if crop_id = "soybean" then 150
  else 200

/-- A validated soil sample: the five numeric request parameters extracted
by the endpoint. -/
structure SoilSample where
  nitrogen : ℚ
  phosphorus : ℚ
  potassium : ℚ
  ph : ℚ
  farm_size : ℚ
deriving DecidableEq, Repr

/-- The spec's valid input domain for a soil sample: non-negative
nutrients, pH on the 0-14 scale, positive farm size. -/
def SoilSample.Valid (s : SoilSample) : Prop :=
  0 ≤ s.nitrogen ∧ 0 ≤ s.phosphorus ∧ 0 ≤ s.potassium ∧
  0 ≤ s.ph ∧ s.ph ≤ 14 ∧ 0 < s.farm_size

instance (s : SoilSample) : Decidable s.Valid := by
  unfold SoilSample.Valid
  infer_instance

/-- Python's `round(x, d)`: rounding to `d` decimal places, modelled as
round-half-up on exact rationals. -/
def roundTo (d : ℕ) (x : ℚ) : ℚ := (round (x * 10 ^ d) : ℚ) / 10 ^ d

/-- The `ph_suitable` test: `pH_min <= soil_ph <= pH_max`. -/
def ph_suitable (c : CropProfile) (s : SoilSample) : Bool :=
  decide (c.nutrient_requirements.pH_min ≤ s.ph) &&
  decide (s.ph ≤ c.nutrient_requirements.pH_max)

/-- The `ph_factor` variable: `1.0 if ph_suitable else 0.7`. -/
def ph_factor (c : CropProfile) (s : SoilSample) : ℚ :=
  if ph_suitable c s then 1 else 7/10

/-- The `n_deficit` variable: `max(0, N_requirement - current_n)`. -/
def n_deficit (c : CropProfile) (s : SoilSample) : ℚ :=
  max 0 (c.nutrient_requirements.N - s.nitrogen)

/-- The `p_deficit` variable: `max(0, P_requirement - current_p)`. -/
def p_deficit (c : CropProfile) (s : SoilSample) : ℚ :=
  max 0 (c.nutrient_requirements.P - s.phosphorus)

/-- The `k_deficit` variable: `max(0, K_requirement - current_k)`. -/
def k_deficit (c : CropProfile) (s : SoilSample) : ℚ :=
  max 0 (c.nutrient_requirements.K - s.potassium)

/-- The `urea_needed` variable: `n_deficit / 0.46` (urea is 46% N). -/
def urea_needed (c : CropProfile) (s : SoilSample) : ℚ := n_deficit c s / (46/100)

/-- The `dap_needed` variable: `p_deficit / 0.46` (DAP is 46% P2O5). -/
def dap_needed (c : CropProfile) (s : SoilSample) : ℚ := p_deficit c s / (46/100)

/-- The `mop_needed` variable: `k_deficit / 0.60` (MOP is 60% K2O). -/
def mop_needed (c : CropProfile) (s : SoilSample) : ℚ := k_deficit c s / (60/100)

/-- The `fertilizer_cost_per_ha` variable: bags of each product times the
fixed bag price. -/
def fertilizer_cost_per_ha (c : CropProfile) (s : SoilSample) : ℚ :=
  urea_needed c s / 50 * ureaPrice +
  dap_needed c s / 50 * dapPrice +
  mop_needed c s / 50 * mopPrice

/-- The helper `calculate_nutrient_efficiency`: weighted average of
per-nutrient satisfaction ratios, each capped at 1.0. -/
def calculate_nutrient_efficiency (current_n current_p current_k : ℚ)
    (req : NutrientRequirements) : ℚ :=
  (if 0 < req.N then min 1 (current_n / req.N) else 1) * (1/2) +
  (if 0 < req.P then min 1 (current_p / req.P) else 1) * (3/10) +
  (if 0 < req.K then min 1 (current_k / req.K) else 1) * (1/5)

/-- The `nutrient_efficiency` variable of `analyze_crop_profitability`. -/
def nutrient_efficiency (c : CropProfile) (s : SoilSample) : ℚ :=
  calculate_nutrient_efficiency s.nitrogen s.phosphorus s.potassium c.nutrient_requirements

/-- The `expected_yield` variable: `base_yield * nutrient_efficiency * ph_factor`
(tons per hectare, before output rounding). -/
def expected_yield (c : CropProfile) (s : SoilSample) : ℚ :=
  c.base_yield * nutrient_efficiency c s * ph_factor c s

/-- The `revenue_per_ha` variable: `expected_yield * market_price`. -/
def revenue_per_ha (c : CropProfile) (s : SoilSample) : ℚ :=
  expected_yield c s * c.market_price

/-- The `total_cost_per_ha` variable: fertilizer cost plus the crop's
other per-hectare costs. -/
def total_cost_per_ha (c : CropProfile) (s : SoilSample) : ℚ :=
  fertilizer_cost_per_ha c s + base_costs_per_ha c.id

/-- The `net_profit_per_ha` variable. -/
def net_profit_per_ha (c : CropProfile) (s : SoilSample) : ℚ :=
  revenue_per_ha c s - total_cost_per_ha c s

/-- The `total_revenue` variable: per-hectare revenue scaled by farm size
(before output rounding). -/
def total_revenue (c : CropProfile) (s : SoilSample) : ℚ :=
  revenue_per_ha c s * s.farm_size

/-- The `total_cost` variable: per-hectare cost scaled by farm size
(before output rounding). -/
def total_cost (c : CropProfile) (s : SoilSample) : ℚ :=
  total_cost_per_ha c s * s.farm_size

/-- The `net_profit` variable: per-hectare profit scaled by farm size
(before output rounding). -/
def net_profit (c : CropProfile) (s : SoilSample) : ℚ :=
  net_profit_per_ha c s * s.farm_size

/-- The guarded ROI formula: `net_profit / total_cost * 100 if total_cost > 0
else 0`. -/
def roiOf (net cost : ℚ) : ℚ :=
  if 0 < cost then net / cost * 100 else 0

/-- The `roi` variable of `analyze_crop_profitability` (before output
rounding). -/
def roi (c : CropProfile) (s : SoilSample) : ℚ :=
  roiOf (net_profit c s) (total_cost c s)

/-- The `get_application_schedule` helper: a static string table with a
default. -/
def get_application_schedule (crop_id : String) : List String :=
  if crop_id = "wheat" then
    ["Pre-sowing: 50% N, 100% P, 100% K", "Tillering: 25% N", "Grain filling: 25% N"]
  else if crop_id = "rice" then
    ["Transplanting: 50% N, 100% P, 100% K", "Tillering: 25% N", "Panicle initiation: 25% N"]
  else if crop_id = "corn" then
    ["Planting: 30% N, 100% P, 100% K", "V6 stage: 40% N", "Tasseling: 30% N"]
  else if crop_id = "cotton" then
    ["Planting: 25% N, 100% P, 50% K", "Squaring: 50% N, 50% K", "Flowering: 25% N"]
  else if crop_id = "sugarcane" then
    ["Planting: 33% N, 100% P, 50% K", "Tillering: 33% N, 50% K", "Grand growth: 34% N"]
  else if crop_id = "soybean" then
    ["Planting: 100% P, 100% K", "Flowering: 100% N", "Pod filling: Monitor only"]
  else ["Pre-planting: 100% fertilizer"]

/-- The `fertilizer_plan` dict of an analysis. -/
structure FertilizerPlan where
  urea_bags : ℚ
  dap_bags : ℚ
  mop_bags : ℚ
  total_fertilizer_cost : ℚ
  application_schedule : List String
deriving DecidableEq, Repr, Inhabited

/-- The `nutrient_deficits` dict of an analysis. -/
structure NutrientDeficits where
  nitrogen : ℚ
  phosphorus : ℚ
  potassium : ℚ
deriving DecidableEq, Repr, Inhabited

/-- The per-crop result dict returned by `analyze_crop_profitability`. -/
structure CropAnalysis where
  crop_id : String
  crop_name : String
  suitability_score : ℚ
  expected_yield : ℚ
  total_yield : ℚ
  market_price : ℚ
  total_revenue : ℚ
  total_cost : ℚ
  net_profit : ℚ
  roi : ℚ
  fertilizer_plan : FertilizerPlan
  growing_season_days : ℕ
  water_requirement : WaterRequirement
  ph_suitable : Bool
  nutrient_deficits : NutrientDeficits
deriving DecidableEq, Repr, Inhabited

/-- The function `analyze_crop_profitability`: the per-crop analysis dict, with each
numeric output field rounded exactly as in the source. -/
def analyze_crop_profitability (c : CropProfile) (s : SoilSample) : CropAnalysis :=
  { crop_id := c.id
    crop_name := c.name
    suitability_score := roundTo 1 (nutrient_efficiency c s * ph_factor c s * 100)
    expected_yield := roundTo 2 (expected_yield c s)
    total_yield := roundTo 2 (expected_yield c s * s.farm_size)
    market_price := c.market_price
    total_revenue := roundTo 2 (total_revenue c s)
    total_cost := roundTo 2 (total_cost c s)
    net_profit := roundTo 2 (net_profit c s)
    roi := roundTo 1 (roi c s)
    fertilizer_plan :=
      { urea_bags := roundTo 1 (urea_needed c s * s.farm_size / 50)
        dap_bags := roundTo 1 (dap_needed c s * s.farm_size / 50)
        mop_bags := roundTo 1 (mop_needed c s * s.farm_size / 50)
        total_fertilizer_cost := roundTo 2 (fertilizer_cost_per_ha c s * s.farm_size)
        application_schedule := get_application_schedule c.id }
    growing_season_days := c.growing_season
    water_requirement := c.water_requirement
    ph_suitable := ph_suitable c s
    nutrient_deficits :=
      { nitrogen := roundTo 1 (n_deficit c s)
        phosphorus := roundTo 1 (p_deficit c s)
        potassium := roundTo 1 (k_deficit c s) } }

/-- The `crop_analyses` list before sorting: one analysis per catalog
crop, in catalog insertion order. -/
def crop_analyses (s : SoilSample) : List CropAnalysis :=
  CROP_DATA.map (fun c => analyze_crop_profitability c s)

/-- The descending-by-roi comparator used by the ranking; Python's
`sort(key=lambda x: x["roi"], reverse=True)` is a stable descending sort
on the (rounded) `roi` field. -/
def roiDesc (a b : CropAnalysis) : Bool := decide (b.roi ≤ a.roi)

/-- The analyzer: the `crop_analyses` list sorted by `roi` descending with
a stable sort, as `list.sort(..., reverse=True)` does. -/
def analyze (s : SoilSample) : List CropAnalysis :=
  (crop_analyses s).mergeSort roiDesc

/-- A recommendation message of `generate_recommendations`, abstracted by
kind and payload; the spec makes the triggering conditions, not the exact
wording, the contract. -/
inductive RecMsg where
  | plantTop (crop_name : String) (roi : ℚ)
  | invest (amount : ℚ)
  | adjustPh
  | alternative (crop_name : String) (roi : ℚ)
  | marketAdvice
  | rotationAdvice
deriving DecidableEq, Repr

/-- The function `generate_recommendations`: the conditional message sequence built
from the top-ranked analyses, followed by the two fixed general-advice
messages. -/
def generate_recommendations (top_crops : List CropAnalysis) : List RecMsg :=
  (match top_crops with
   | [] => []
   | best :: rest =>
       [RecMsg.plantTop best.crop_name best.roi] ++
       (if 0 < best.fertilizer_plan.total_fertilizer_cost then
          [RecMsg.invest best.fertilizer_plan.total_fertilizer_cost]
        else []) ++
       (if best.ph_suitable then [] else [RecMsg.adjustPh]) ++
       (match rest with
        | [] => []
        | second :: _ => [RecMsg.alternative second.crop_name second.roi])) ++
  [RecMsg.marketAdvice, RecMsg.rotationAdvice]

/-- The raw request body: each of the five required soil fields may be
missing (`none`). -/
structure RawSoilData where
  nitrogen : Option ℚ
  phosphorus : Option ℚ
  potassium : Option ℚ
  ph : Option ℚ
  farm_size : Option ℚ
deriving DecidableEq, Repr

/-- The endpoint's input validation: the `required_fields` presence loop
of `predict_profitable_crops`, which raises a client-facing 400 error
naming the first missing field and performs no range checks on the
values. -/
def validateSoilData (d : RawSoilData) : Except String SoilSample :=
  match d.nitrogen with
  | none => .error "Missing required field: nitrogen"
  | some n =>
    match d.phosphorus with
    | none => .error "Missing required field: phosphorus"
    | some p =>
      match d.potassium with
      | none => .error "Missing required field: potassium"
      | some k =>
        match d.ph with
        | none => .error "Missing required field: ph"
        | some ph =>
          match d.farm_size with
          | none => .error "Missing required field: farm_size"
          | some fs => .ok { nitrogen := n, phosphorus := p, potassium := k, ph := ph, farm_size := fs }

/-- The success response body assembled by `predict_profitable_crops`:
echoed soil analysis, top-5 crops, summary of the best crop, and
recommendations from the top 3. -/
structure PredictResponse where
  soil_analysis : SoilSample
  top_crops : List CropAnalysis
  best_crop : String
  max_roi : ℚ
  total_investment_needed : ℚ
  expected_profit : ℚ
  recommendations : List RecMsg
deriving DecidableEq, Repr

/-- The response construction of `predict_profitable_crops` on a
validated sample: all truncation to top 5 / top 3 happens here, at the
serving layer, on the full ranked list. -/
def predictResponse (s : SoilSample) : PredictResponse :=
  { soil_analysis := s
    top_crops := (analyze s).take 5
    best_crop := ((analyze s).headI).crop_name
    max_roi := ((analyze s).headI).roi
    total_investment_needed := ((analyze s).headI).total_cost
    expected_profit := ((analyze s).headI).net_profit
    recommendations := generate_recommendations ((analyze s).take 3) }

/-- The full endpoint: validate, then compute; after validation no step
can fail. -/
def predictEndpoint (d : RawSoilData) : Except String PredictResponse :=
  (validateSoilData d).map predictResponse

/-- The prediction record the endpoint inserts into the `predictions`
table before returning. -/
structure PredictionRecord where
  input_data : SoilSample
  predictions : List CropAnalysis
  recommendations : List RecMsg
deriving DecidableEq, Repr

/-- The endpoint as a state transformer over the database table: it
appends one prediction record and returns the response; it never reads
the table. -/
def predictWithDb (s : SoilSample) (db : List PredictionRecord) :
    PredictResponse × List PredictionRecord :=
  (predictResponse s,
   db ++ [{ input_data := s
            predictions := (analyze s).take 3
            recommendations := generate_recommendations ((analyze s).take 3) }])

/-! ### Helper lemmas -/

lemma roiDesc_trans : ∀ a b c : CropAnalysis,
    roiDesc a b = true → roiDesc b c = true → roiDesc a c = true := by
  intro a b c hab hbc
  simp only [roiDesc, decide_eq_true_iff] at *
  exact le_trans hbc hab

lemma roiDesc_total : ∀ a b : CropAnalysis, (roiDesc a b || roiDesc b a) = true := by
  intro a b
  simp only [roiDesc, Bool.or_eq_true, decide_eq_true_iff]
  exact le_total b.roi a.roi

lemma round_mono_rat {x y : ℚ} (h : x ≤ y) : round x ≤ round y := by
  rw [round_eq, round_eq]
  exact Int.floor_le_floor (by linarith)

lemma roundTo_mono (d : ℕ) {x y : ℚ} (h : x ≤ y) : roundTo d x ≤ roundTo d y := by
  unfold roundTo
  have hp : (0 : ℚ) < 10 ^ d := by positivity
  have hr : round (x * 10 ^ d) ≤ round (y * 10 ^ d) :=
    round_mono_rat (mul_le_mul_of_nonneg_right h (le_of_lt hp))
  exact (div_le_div_iff_of_pos_right hp).mpr (by exact_mod_cast hr)

lemma ph_suitable_iff (c : CropProfile) (s : SoilSample) :
    ph_suitable c s = true ↔
      (c.nutrient_requirements.pH_min ≤ s.ph ∧ s.ph ≤ c.nutrient_requirements.pH_max) := by
  simp [ph_suitable]

lemma ph_factor_bounds (c : CropProfile) (s : SoilSample) :
    0 < ph_factor c s ∧ ph_factor c s ≤ 1 := by
  unfold ph_factor
  split <;> norm_num

lemma efficiency_bounds (req : NutrientRequirements) {n p k : ℚ}
    (hn : 0 ≤ n) (hp : 0 ≤ p) (hk : 0 ≤ k) :
    0 ≤ calculate_nutrient_efficiency n p k req ∧
      calculate_nutrient_efficiency n p k req ≤ 1 := by
  unfold calculate_nutrient_efficiency
  have h1 : ∀ r x : ℚ, 0 ≤ x →
      0 ≤ (if 0 < r then min 1 (x / r) else 1) ∧ (if 0 < r then min 1 (x / r) else 1) ≤ 1 := by
    intro r x hx
    split
    · exact ⟨le_min (by norm_num) (div_nonneg hx (le_of_lt ‹0 < r›)), min_le_left _ _⟩
    · exact ⟨by norm_num, le_refl 1⟩
  obtain ⟨a1, a2⟩ := h1 req.N n hn
  obtain ⟨b1, b2⟩ := h1 req.P p hp
  obtain ⟨c1, c2⟩ := h1 req.K k hk
  constructor <;> nlinarith

lemma roiOf_two_smul (n c : ℚ) : roiOf (2 * n) (2 * c) = roiOf n c := by
  unfold roiOf
  by_cases h : 0 < c
  · rw [if_pos h, if_pos (by linarith)]
    field_simp
    ring
  · rw [if_neg h, if_neg (by intro h2; exact h (by linarith))]

lemma analyze_crop_congr_ph (c : CropProfile) (s t : SoilSample)
    (hn : s.nitrogen = t.nitrogen) (hp : s.phosphorus = t.phosphorus)
    (hk : s.potassium = t.potassium) (hf : s.farm_size = t.farm_size)
    (hph : ph_suitable c s = ph_suitable c t) :
    analyze_crop_profitability c s = analyze_crop_profitability c t := by
  obtain ⟨n, p, k, ph₁, f⟩ := s
  obtain ⟨n', p', k', ph₂, f'⟩ := t
  simp only at hn hp hk hf
  subst hn hp hk hf
  simp only [analyze_crop_profitability, expected_yield, nutrient_efficiency,
    revenue_per_ha, total_revenue, total_cost, net_profit, total_cost_per_ha,
    net_profit_per_ha, roi, roiOf, ph_factor, n_deficit, p_deficit, k_deficit,
    urea_needed, dap_needed, mop_needed, fertilizer_cost_per_ha, hph]

lemma base_costs_wheat : base_costs_per_ha "wheat" = 200 := by simp [base_costs_per_ha]

lemma base_costs_rice : base_costs_per_ha "rice" = 250 := by simp [base_costs_per_ha]

lemma base_costs_corn : base_costs_per_ha "corn" = 180 := by simp [base_costs_per_ha]

lemma base_costs_cotton : base_costs_per_ha "cotton" = 300 := by simp [base_costs_per_ha]

lemma base_costs_sugarcane : base_costs_per_ha "sugarcane" = 500 := by simp [base_costs_per_ha]

lemma base_costs_soybean : base_costs_per_ha "soybean" = 150 := by simp [base_costs_per_ha]

/-! ### Concrete inputs used by witnesses and counterexamples -/

/-- A generic valid soil sample. -/
def sampleA : SoilSample :=
  { nitrogen := 50, phosphorus := 30, potassium := 20, ph := 13/2, farm_size := 1 }

/-- The corn-perfect sample of the spec's scenario, farm size 1. -/
def sampleCorn : SoilSample :=
  { nitrogen := 150, phosphorus := 70, potassium := 60, ph := 13/2, farm_size := 1 }

/-- The corn-perfect sample with farm size 0: the only way to drive
`total_cost` to 0, exercising the guarded ROI branch. -/
def sampleCornZero : SoilSample :=
  { nitrogen := 150, phosphorus := 70, potassium := 60, ph := 13/2, farm_size := 0 }

/-! ### Claim theorems -/

/-- C5: for every crop and soil sample, the `roi` computed by the analyzer
equals `net_profit / total_cost * 100` when `total_cost > 0` and equals 0
when `total_cost = 0` (no division by zero is ever performed), and the
returned `roi` field is that value rounded to 1 decimal place. -/
theorem roi_guarded (c : CropProfile) (s : SoilSample) :
    (0 < total_cost c s → roi c s = net_profit c s / total_cost c s * 100) ∧
    (total_cost c s = 0 → roi c s = 0) ∧
    (analyze_crop_profitability c s).roi = roundTo 1 (roi c s) := by
  refine ⟨fun h => ?_, fun h => ?_, rfl⟩
  · simp [roi, roiOf, h]
  · simp [roi, roiOf, h]

theorem roi_guarded_witness :
    (0 < total_cost cornProfile sampleCorn ∧
      roi cornProfile sampleCorn =
        net_profit cornProfile sampleCorn / total_cost cornProfile sampleCorn * 100) ∧
    (total_cost cornProfile sampleCornZero = 0 ∧ roi cornProfile sampleCornZero = 0) :=
  ⟨⟨by norm_num [total_cost, total_cost_per_ha, fertilizer_cost_per_ha, urea_needed,
      dap_needed, mop_needed, n_deficit, p_deficit, k_deficit, base_costs_corn,
      ureaPrice, dapPrice, mopPrice, cornProfile, sampleCorn, max_def],
    (roi_guarded cornProfile sampleCorn).1
      (by norm_num [total_cost, total_cost_per_ha, fertilizer_cost_per_ha, urea_needed,
        dap_needed, mop_needed, n_deficit, p_deficit, k_deficit, base_costs_corn,
        ureaPrice, dapPrice, mopPrice, cornProfile, sampleCorn, max_def])⟩,
   ⟨by norm_num [total_cost, total_cost_per_ha, fertilizer_cost_per_ha, urea_needed,
      dap_needed, mop_needed, n_deficit, p_deficit, k_deficit, base_costs_corn,
      ureaPrice, dapPrice, mopPrice, cornProfile, sampleCornZero, max_def],
    (roi_guarded cornProfile sampleCornZero).2.1
      (by norm_num [total_cost, total_cost_per_ha, fertilizer_cost_per_ha, urea_needed,
        dap_needed, mop_needed, n_deficit, p_deficit, k_deficit, base_costs_corn,
        ureaPrice, dapPrice, mopPrice, cornProfile, sampleCornZero, max_def])⟩⟩

/-- C8: the endpoint is deterministic and idempotent — its response is a
pure function of the soil sample: it does not depend on the accumulated
database state, a second call on the state left by a first identical call
returns the identical response, and the only state change is appending
one prediction record. -/
theorem predict_state_independent (s : SoilSample) (db db' : List PredictionRecord) :
    (predictWithDb s db).1 = (predictWithDb s db').1 ∧
    (predictWithDb s (predictWithDb s db).2).1 = (predictWithDb s db).1 ∧
    (predictWithDb s db).2 =
      db ++ [{ input_data := s
               predictions := (analyze s).take 3
               recommendations := generate_recommendations ((analyze s).take 3) }] :=
  ⟨rfl, rfl, rfl⟩

/-- C10: every numeric field of a returned CropAnalysis is a rounded
value: `roi`, `suitability_score`, the per-nutrient deficits and the
fertilizer bag counts are rounded to 1 decimal place, the monetary and
yield totals to 2 decimal places, and `roi` is the rounding of the ratio
of the unrounded profit and cost. -/
theorem output_fields_rounded (c : CropProfile) (s : SoilSample) :
    (analyze_crop_profitability c s).roi =
      roundTo 1 (roiOf (net_profit c s) (total_cost c s)) ∧
    (analyze_crop_profitability c s).suitability_score =
      roundTo 1 (nutrient_efficiency c s * ph_factor c s * 100) ∧
    (analyze_crop_profitability c s).nutrient_deficits.nitrogen = roundTo 1 (n_deficit c s) ∧
    (analyze_crop_profitability c s).nutrient_deficits.phosphorus = roundTo 1 (p_deficit c s) ∧
    (analyze_crop_profitability c s).nutrient_deficits.potassium = roundTo 1 (k_deficit c s) ∧
    (analyze_crop_profitability c s).fertilizer_plan.urea_bags =
      roundTo 1 (urea_needed c s * s.farm_size / 50) ∧
    (analyze_crop_profitability c s).fertilizer_plan.dap_bags =
      roundTo 1 (dap_needed c s * s.farm_size / 50) ∧
    (analyze_crop_profitability c s).fertilizer_plan.mop_bags =
      roundTo 1 (mop_needed c s * s.farm_size / 50) ∧
    (analyze_crop_profitability c s).expected_yield = roundTo 2 (expected_yield c s) ∧
    (analyze_crop_profitability c s).total_yield =
      roundTo 2 (expected_yield c s * s.farm_size) ∧
    (analyze_crop_profitability c s).total_revenue = roundTo 2 (total_revenue c s) ∧
    (analyze_crop_profitability c s).total_cost = roundTo 2 (total_cost c s) ∧
    (analyze_crop_profitability c s).net_profit = roundTo 2 (net_profit c s) ∧
    (analyze_crop_profitability c s).fertilizer_plan.total_fertilizer_cost =
      roundTo 2 (fertilizer_cost_per_ha c s * s.farm_size) :=
  ⟨rfl, rfl, rfl, rfl, rfl, rfl, rfl, rfl, rfl, rfl, rfl, rfl, rfl, rfl⟩

/-- C1: for every soil sample, the ranked sequence produced by the
analyzer is sorted by the `roi` field in descending order, and the sort is
stable: any two analyses already in descending-or-equal `roi` order in the
catalog-order list (in particular any two with equal `roi`) keep their
relative order in the output, so the output order is deterministic for
identical inputs. -/
theorem analyze_sorted_stable (s : SoilSample) :
    (analyze s).Pairwise (fun a b => b.roi ≤ a.roi) ∧
    ∀ a b : CropAnalysis, [a, b].Sublist (crop_analyses s) → b.roi ≤ a.roi →
      [a, b].Sublist (analyze s) := by
  constructor
  · have h := List.sorted_mergeSort roiDesc_trans roiDesc_total
      (crop_analyses s)
    exact h.imp fun hab => by simpa [roiDesc] using hab
  · intro a b hsub hle
    exact List.pair_sublist_mergeSort roiDesc_trans roiDesc_total
      (by simpa [roiDesc] using hle) hsub

theorem analyze_sorted_stable_witness :
    [analyze_crop_profitability riceProfile sampleA,
     analyze_crop_profitability soybeanProfile sampleA].Sublist (analyze sampleA) := by
  apply (analyze_sorted_stable sampleA).2
  · exact .cons _ (.cons₂ _ (.cons _ (.cons _ (.cons _ (.cons₂ _ .slnil)))))
  · norm_num [analyze_crop_profitability, roi, roiOf, net_profit, net_profit_per_ha,
      revenue_per_ha, expected_yield, nutrient_efficiency, calculate_nutrient_efficiency,
      ph_factor, ph_suitable, total_cost, total_cost_per_ha, fertilizer_cost_per_ha,
      urea_needed, dap_needed, mop_needed, n_deficit, p_deficit, k_deficit,
      base_costs_rice, base_costs_soybean, ureaPrice, dapPrice, mopPrice,
      riceProfile, soybeanProfile, sampleA, roundTo, round_eq, max_def]

/-- The request body of the C2 counterexample: all five fields present but
`farm_size = -3`, an out-of-domain value. -/
def rawNegFarm : RawSoilData :=
  { nitrogen := some 50, phosphorus := some 30, potassium := some 20
    ph := some (13/2), farm_size := some (-3) }

/-- The sample the endpoint extracts from `rawNegFarm`. -/
def negFarmSample : SoilSample :=
  { nitrogen := 50, phosphorus := 30, potassium := 20, ph := 13/2, farm_size := -3 }

/-- C2 counterexample: the endpoint's validation accepts a request whose
`farm_size` is negative (hence `≤ 0`) and computes a full response for it,
so validation does not raise exactly on out-of-domain input — only on
missing fields. -/
theorem validation_accepts_nonpositive_farm :
    negFarmSample.farm_size < 0 ∧
    validateSoilData rawNegFarm = Except.ok negFarmSample ∧
    predictEndpoint rawNegFarm = Except.ok (predictResponse negFarmSample) :=
  ⟨by norm_num [negFarmSample], rfl, rfl⟩

/-- C2 as amended: the endpoint's validation fails (with a client-facing
missing-field error) exactly when one of the five required soil fields is
absent; no range check is performed on the values (non-positive
`farm_size` and negative nutrient values are accepted), and once
validation succeeds the rest of the computation is total and produces the
response. -/
theorem validation_iff_fields_present (d : RawSoilData) :
    ((∃ s, validateSoilData d = Except.ok s) ↔
      (d.nitrogen.isSome ∧ d.phosphorus.isSome ∧ d.potassium.isSome ∧
       d.ph.isSome ∧ d.farm_size.isSome)) ∧
    (∀ s, validateSoilData d = Except.ok s →
      predictEndpoint d = Except.ok (predictResponse s)) := by
  obtain ⟨n, p, k, ph, fs⟩ := d
  cases n <;> cases p <;> cases k <;> cases ph <;> cases fs <;>
    simp [validateSoilData, predictEndpoint, Except.map]

theorem validation_iff_fields_present_witness :
    predictEndpoint rawNegFarm = Except.ok (predictResponse negFarmSample) :=
  (validation_iff_fields_present rawNegFarm).2 negFarmSample rfl

/-- C3: the analyzer returns exactly one analysis per catalog crop — the
output has length six and its `crop_id` multiset is exactly the catalog's
(duplicate-free) id list — and it does not truncate: taking the top-5 and
top-3 prefixes happens only in the endpoint's response assembly, on the
full ranked sequence. -/
theorem analyze_one_per_crop (s : SoilSample) :
    (analyze s).length = 6 ∧
    ((analyze s).map (fun a => a.crop_id)).Perm (CROP_DATA.map (fun c => c.id)) ∧
    (CROP_DATA.map (fun c => c.id)).Nodup ∧
    (predictResponse s).top_crops = (analyze s).take 5 ∧
    (predictResponse s).recommendations = generate_recommendations ((analyze s).take 3) := by
  refine ⟨?_, ?_, by decide, rfl, rfl⟩
  · simp [analyze, crop_analyses, CROP_DATA]
  · have h := (List.mergeSort_perm (crop_analyses s) roiDesc).map (fun a => a.crop_id)
    have he : (crop_analyses s).map (fun a => a.crop_id) = CROP_DATA.map (fun c => c.id) := rfl
    exact he ▸ h

/-- Out-of-range pH sample for the C4 counterexample (pH 9, otherwise
ordinary values). -/
def sample4out : SoilSample :=
  { nitrogen := 60, phosphorus := 60, potassium := 40, ph := 9, farm_size := 1 }

/-- The same nutrients with an in-range pH (6.5) for wheat. -/
def sample4in : SoilSample :=
  { nitrogen := 60, phosphorus := 60, potassium := 40, ph := 13/2, farm_size := 1 }

/-- C4 counterexample: for wheat, with identical nutrients, a valid
out-of-range-pH sample's returned `expected_yield` field is NOT exactly
0.7 times the returned in-range `expected_yield` field — both fields are
rounded to 2 decimals after the penalty, so the exact factor relation
fails on the output (2.36 versus 0.7 x 3.38 = 2.366). -/
theorem ph_penalty_not_exact_on_output :
    sample4out.Valid ∧ sample4in.Valid ∧
    ¬ (wheatProfile.nutrient_requirements.pH_min ≤ sample4out.ph ∧
       sample4out.ph ≤ wheatProfile.nutrient_requirements.pH_max) ∧
    (wheatProfile.nutrient_requirements.pH_min ≤ sample4in.ph ∧
       sample4in.ph ≤ wheatProfile.nutrient_requirements.pH_max) ∧
    sample4out.nitrogen = sample4in.nitrogen ∧
    sample4out.phosphorus = sample4in.phosphorus ∧
    sample4out.potassium = sample4in.potassium ∧
    (analyze_crop_profitability wheatProfile sample4out).expected_yield ≠
      7/10 * (analyze_crop_profitability wheatProfile sample4in).expected_yield := by
  refine ⟨by norm_num [SoilSample.Valid, sample4out],
    by norm_num [SoilSample.Valid, sample4in],
    by norm_num [wheatProfile, sample4out],
    by norm_num [wheatProfile, sample4in], rfl, rfl, rfl, ?_⟩
  norm_num [analyze_crop_profitability, expected_yield, nutrient_efficiency,
    calculate_nutrient_efficiency, ph_factor, ph_suitable, wheatProfile,
    sample4out, sample4in, roundTo, round_eq]

/-- C4 as amended: if the sample's pH is outside the crop's range then
`ph_suitable` is false and the expected yield *before output rounding* is
exactly 0.7 times the in-range expected yield before rounding (the
returned field is the rounding of that product, so the exact factor holds
only up to the final 2-decimal rounding); moreover the penalty is flat:
the entire analysis is identical for any two out-of-range pH values with
the same nutrients and farm size. -/
theorem ph_penalty_flat (c : CropProfile) (s s' : SoilSample)
    (hn : s'.nitrogen = s.nitrogen) (hp : s'.phosphorus = s.phosphorus)
    (hk : s'.potassium = s.potassium)
    (hout : ¬ (c.nutrient_requirements.pH_min ≤ s.ph ∧
      s.ph ≤ c.nutrient_requirements.pH_max))
    (hin : c.nutrient_requirements.pH_min ≤ s'.ph ∧
      s'.ph ≤ c.nutrient_requirements.pH_max) :
    (analyze_crop_profitability c s).ph_suitable = false ∧
    expected_yield c s = 7/10 * expected_yield c s' ∧
    (analyze_crop_profitability c s).expected_yield =
      roundTo 2 (7/10 * expected_yield c s') ∧
    ∀ t : SoilSample, t.nitrogen = s.nitrogen → t.phosphorus = s.phosphorus →
      t.potassium = s.potassium → t.farm_size = s.farm_size →
      ¬ (c.nutrient_requirements.pH_min ≤ t.ph ∧
        t.ph ≤ c.nutrient_requirements.pH_max) →
      analyze_crop_profitability c t = analyze_crop_profitability c s := by
  have hps : ph_suitable c s = false := by
    cases hb : ph_suitable c s with
    | false => rfl
    | true => exact absurd ((ph_suitable_iff c s).mp hb) hout
  have hps' : ph_suitable c s' = true := (ph_suitable_iff c s').mpr hin
  have hf : ph_factor c s = 7/10 := by simp [ph_factor, hps]
  have hf' : ph_factor c s' = 1 := by simp [ph_factor, hps']
  have heff : nutrient_efficiency c s' = nutrient_efficiency c s := by
    simp only [nutrient_efficiency, hn, hp, hk]
  have hyield : expected_yield c s = 7/10 * expected_yield c s' := by
    simp only [expected_yield, hf, hf', heff]
    ring
  refine ⟨hps, hyield, ?_, ?_⟩
  · show roundTo 2 (expected_yield c s) = roundTo 2 (7/10 * expected_yield c s')
    rw [hyield]
  · intro t h1 h2 h3 h4 h5
    have hpt : ph_suitable c t = false := by
      cases hb : ph_suitable c t with
      | false => rfl
      | true => exact absurd ((ph_suitable_iff c t).mp hb) h5
    exact analyze_crop_congr_ph c t s h1 h2 h3 h4 (by rw [hpt, hps])

theorem ph_penalty_flat_witness :
    expected_yield wheatProfile sample4out = 7/10 * expected_yield wheatProfile sample4in :=
  (ph_penalty_flat wheatProfile sample4out sample4in rfl rfl rfl
    (by norm_num [wheatProfile, sample4out])
    (by norm_num [wheatProfile, sample4in])).2.1

lemma roundTo_zero (d : ℕ) : roundTo d 0 = 0 := by
  simp [roundTo]

lemma roundTo_one_hundred : roundTo 1 100 = 100 := by
  norm_num [roundTo, round_eq]

/-- A sample whose nitrogen reading needs two decimal places: its wheat
nitrogen deficit is 119.95, which the output rounds to 120.0. -/
def sample6 : SoilSample :=
  { nitrogen := 1/20, phosphorus := 60, potassium := 40, ph := 13/2, farm_size := 1 }

/-- C6 counterexample: for a valid sample and a catalog crop, the returned
nitrogen deficit field differs from `max(0, requirement_N - sample.N)` —
the field is that quantity rounded to 1 decimal place (119.95 becomes
120.0). -/
theorem deficit_field_not_exact :
    sample6.Valid ∧ wheatProfile ∈ CROP_DATA ∧
    (analyze_crop_profitability wheatProfile sample6).nutrient_deficits.nitrogen ≠
      max 0 (wheatProfile.nutrient_requirements.N - sample6.nitrogen) := by
  refine ⟨by norm_num [SoilSample.Valid, sample6], by simp [CROP_DATA], ?_⟩
  norm_num [analyze_crop_profitability, n_deficit, wheatProfile, sample6,
    roundTo, round_eq, max_def]

/-- C6 as amended: for every crop and valid sample the returned
`suitability_score` lies in [0, 100]; the deficit *variables* equal
`max(0, requirement - reading)` exactly, the returned deficit fields are
those values rounded to 1 decimal place, and all of them are
non-negative. -/
theorem score_bounds_and_deficits (c : CropProfile) (s : SoilSample) (hs : s.Valid) :
    0 ≤ (analyze_crop_profitability c s).suitability_score ∧
    (analyze_crop_profitability c s).suitability_score ≤ 100 ∧
    n_deficit c s = max 0 (c.nutrient_requirements.N - s.nitrogen) ∧
    p_deficit c s = max 0 (c.nutrient_requirements.P - s.phosphorus) ∧
    k_deficit c s = max 0 (c.nutrient_requirements.K - s.potassium) ∧
    (analyze_crop_profitability c s).nutrient_deficits.nitrogen =
      roundTo 1 (max 0 (c.nutrient_requirements.N - s.nitrogen)) ∧
    (analyze_crop_profitability c s).nutrient_deficits.phosphorus =
      roundTo 1 (max 0 (c.nutrient_requirements.P - s.phosphorus)) ∧
    (analyze_crop_profitability c s).nutrient_deficits.potassium =
      roundTo 1 (max 0 (c.nutrient_requirements.K - s.potassium)) ∧
    0 ≤ (analyze_crop_profitability c s).nutrient_deficits.nitrogen ∧
    0 ≤ (analyze_crop_profitability c s).nutrient_deficits.phosphorus ∧
    0 ≤ (analyze_crop_profitability c s).nutrient_deficits.potassium := by
  obtain ⟨hn, hp, hk, -, -, -⟩ := hs
  have heff : 0 ≤ nutrient_efficiency c s ∧ nutrient_efficiency c s ≤ 1 :=
    efficiency_bounds c.nutrient_requirements hn hp hk
  have hpf := ph_factor_bounds c s
  have hprod : 0 ≤ nutrient_efficiency c s * ph_factor c s * 100 :=
    mul_nonneg (mul_nonneg heff.1 (le_of_lt hpf.1)) (by norm_num)
  have hprod' : nutrient_efficiency c s * ph_factor c s * 100 ≤ 100 := by
    nlinarith [heff.1, heff.2, hpf.1, hpf.2]
  have hd : ∀ x : ℚ, (0:ℚ) ≤ roundTo 1 (max 0 x) := fun x => by
    have := roundTo_mono 1 (le_max_left 0 x)
    rwa [roundTo_zero] at this
  refine ⟨?_, ?_, rfl, rfl, rfl, rfl, rfl, rfl, hd _, hd _, hd _⟩
  · have := roundTo_mono 1 hprod
    rwa [roundTo_zero] at this
  · have := roundTo_mono 1 hprod'
    rwa [roundTo_one_hundred] at this

theorem score_bounds_and_deficits_witness :
    0 ≤ (analyze_crop_profitability wheatProfile sampleA).suitability_score ∧
    (analyze_crop_profitability wheatProfile sampleA).suitability_score ≤ 100 :=
  ⟨(score_bounds_and_deficits wheatProfile sampleA
      (by norm_num [SoilSample.Valid, sampleA])).1,
   (score_bounds_and_deficits wheatProfile sampleA
      (by norm_num [SoilSample.Valid, sampleA])).2.1⟩

/-- Wheat sample with a modest nitrogen shortfall, farm size 1. -/
def sample7a : SoilSample :=
  { nitrogen := 101, phosphorus := 60, potassium := 40, ph := 13/2, farm_size := 1 }

/-- The same sample with the farm size doubled. -/
def sample7b : SoilSample :=
  { nitrogen := 101, phosphorus := 60, potassium := 40, ph := 13/2, farm_size := 2 }

/-- C7 counterexample: doubling `farm_size` does not exactly double the
returned `net_profit` field: the unrounded profit per hectare is
815.28532..., so the returned fields are 815.29 and 1630.57, and
1630.57 is not 2 x 815.29. -/
theorem doubling_not_exact_on_output :
    sample7a.Valid ∧
    sample7b = { sample7a with farm_size := 2 * sample7a.farm_size } ∧
    (analyze_crop_profitability wheatProfile sample7b).net_profit ≠
      2 * (analyze_crop_profitability wheatProfile sample7a).net_profit := by
  refine ⟨by norm_num [SoilSample.Valid, sample7a],
    by norm_num [sample7a, sample7b], ?_⟩
  norm_num [analyze_crop_profitability, net_profit, net_profit_per_ha, revenue_per_ha,
    expected_yield, nutrient_efficiency, calculate_nutrient_efficiency, ph_factor,
    ph_suitable, total_cost_per_ha, fertilizer_cost_per_ha, urea_needed, dap_needed,
    mop_needed, n_deficit, p_deficit, k_deficit, base_costs_wheat, ureaPrice, dapPrice,
    mopPrice, wheatProfile, sample7a, sample7b, roundTo, round_eq, max_def]

/-- C7 as amended: doubling `farm_size` exactly doubles the unrounded
totals (`total_revenue`, `total_cost`, `net_profit` before output
rounding) and leaves both the unrounded `roi` and the returned `roi` and
`suitability_score` fields unchanged; the returned total fields are the
2-decimal roundings of the doubled unrounded totals (so they equal exact
doubles only up to that final rounding). -/
theorem doubling_farm_size (c : CropProfile) (s : SoilSample) :
    total_revenue c { s with farm_size := 2 * s.farm_size } = 2 * total_revenue c s ∧
    total_cost c { s with farm_size := 2 * s.farm_size } = 2 * total_cost c s ∧
    net_profit c { s with farm_size := 2 * s.farm_size } = 2 * net_profit c s ∧
    roi c { s with farm_size := 2 * s.farm_size } = roi c s ∧
    (analyze_crop_profitability c { s with farm_size := 2 * s.farm_size }).roi =
      (analyze_crop_profitability c s).roi ∧
    (analyze_crop_profitability c { s with farm_size := 2 * s.farm_size }).suitability_score =
      (analyze_crop_profitability c s).suitability_score ∧
    (analyze_crop_profitability c { s with farm_size := 2 * s.farm_size }).total_revenue =
      roundTo 2 (2 * total_revenue c s) ∧
    (analyze_crop_profitability c { s with farm_size := 2 * s.farm_size }).total_cost =
      roundTo 2 (2 * total_cost c s) ∧
    (analyze_crop_profitability c { s with farm_size := 2 * s.farm_size }).net_profit =
      roundTo 2 (2 * net_profit c s) := by
  have h1 : total_revenue c { s with farm_size := 2 * s.farm_size } = 2 * total_revenue c s := by
    show revenue_per_ha c s * (2 * s.farm_size) = 2 * (revenue_per_ha c s * s.farm_size)
    ring
  have h2 : total_cost c { s with farm_size := 2 * s.farm_size } = 2 * total_cost c s := by
    show total_cost_per_ha c s * (2 * s.farm_size) = 2 * (total_cost_per_ha c s * s.farm_size)
    ring
  have h3 : net_profit c { s with farm_size := 2 * s.farm_size } = 2 * net_profit c s := by
    show net_profit_per_ha c s * (2 * s.farm_size) = 2 * (net_profit_per_ha c s * s.farm_size)
    ring
  have h4 : roi c { s with farm_size := 2 * s.farm_size } = roi c s := by
    simp only [roi, h2, h3, roiOf_two_smul]
  refine ⟨h1, h2, h3, h4, ?_, rfl, ?_, ?_, ?_⟩
  · show roundTo 1 (roi c { s with farm_size := 2 * s.farm_size }) = roundTo 1 (roi c s)
    rw [h4]
  · show roundTo 2 (total_revenue c { s with farm_size := 2 * s.farm_size }) =
      roundTo 2 (2 * total_revenue c s)
    rw [h1]
  · show roundTo 2 (total_cost c { s with farm_size := 2 * s.farm_size }) =
      roundTo 2 (2 * total_cost c s)
    rw [h2]
  · show roundTo 2 (net_profit c { s with farm_size := 2 * s.farm_size }) =
      roundTo 2 (2 * net_profit c s)
    rw [h3]

/-- C9: applied to a non-empty list of top-ranked analyses, the
recommendation generator opens by naming the top crop with its roi; it
contains an investment message (carrying the top crop's fertilizer cost)
iff that cost is positive; it contains the pH-adjustment message iff the
top crop's `ph_suitable` is false; it contains an alternative-crop message
iff a second-ranked crop exists, in which case it names that crop with its
roi; and it always ends with the two fixed general-advice messages. -/
theorem recommendation_conditions (best : CropAnalysis) (rest : List CropAnalysis) :
    (generate_recommendations (best :: rest)).head? =
      some (RecMsg.plantTop best.crop_name best.roi) ∧
    ((RecMsg.invest best.fertilizer_plan.total_fertilizer_cost ∈
        generate_recommendations (best :: rest)) ↔
      0 < best.fertilizer_plan.total_fertilizer_cost) ∧
    ((RecMsg.adjustPh ∈ generate_recommendations (best :: rest)) ↔
      best.ph_suitable = false) ∧
    ((∃ nm r, RecMsg.alternative nm r ∈ generate_recommendations (best :: rest)) ↔
      rest ≠ []) ∧
    (∀ second rest2, rest = second :: rest2 →
      RecMsg.alternative second.crop_name second.roi ∈
        generate_recommendations (best :: rest)) ∧
    (∃ pre, generate_recommendations (best :: rest) =
      pre ++ [RecMsg.marketAdvice, RecMsg.rotationAdvice]) := by
  refine ⟨?_, ?_, ?_, ?_, ?_, ⟨_, rfl⟩⟩
  · cases rest <;> simp [generate_recommendations]
  · cases rest <;> by_cases hf : 0 < best.fertilizer_plan.total_fertilizer_cost <;>
      cases hp : best.ph_suitable <;> simp [generate_recommendations, hf, hp]
  · cases rest <;> by_cases hf : 0 < best.fertilizer_plan.total_fertilizer_cost <;>
      cases hp : best.ph_suitable <;> simp [generate_recommendations, hf, hp]
  · cases rest <;> by_cases hf : 0 < best.fertilizer_plan.total_fertilizer_cost <;>
      cases hp : best.ph_suitable <;> simp [generate_recommendations, hf, hp]
  · intro second rest2 hr
    subst hr
    by_cases hf : 0 < best.fertilizer_plan.total_fertilizer_cost <;>
      cases hp : best.ph_suitable <;> simp [generate_recommendations, hf, hp]

theorem recommendation_conditions_witness :
    RecMsg.alternative (analyze_crop_profitability riceProfile sampleA).crop_name
        (analyze_crop_profitability riceProfile sampleA).roi ∈
      generate_recommendations [analyze_crop_profitability wheatProfile sampleA,
        analyze_crop_profitability riceProfile sampleA] :=
  (recommendation_conditions (analyze_crop_profitability wheatProfile sampleA)
    [analyze_crop_profitability riceProfile sampleA]).2.2.2.2.1
    (analyze_crop_profitability riceProfile sampleA) [] rfl
